import Mathlib

/-!
# Verification of the blue-code identifier-randomization tool

Shallow embedding of the core of the `blue-code` repository (two parallel
trees: `bluecode/` and `src/`) and proofs about it.  Pure functions are
translated directly; code with side effects is modelled as pure functions
from an explicit environment (command results, file-system facts) to a
result paired with a trace of the external effects it performs.  Machine
integers are `Nat`; Python strings are `String`/`List Char` (ASCII; Python's
Unicode-wide `str.isdigit`/`\d` classes are modelled as the ASCII digits,
which is the only class the data of this program uses).
-/

/-- ASCII decimal digit test (model of Python's digit class on ASCII data). -/
def isAsciiDigit (c : Char) : Bool := decide (48 ≤ c.toNat) && decide (c.toNat ≤ 57)

/-- `int(d)` for a digit character. -/
def digitVal (c : Char) : Nat := c.toNat - 48

/-- `str(n)` for `n < 10`. -/
def digitChar (n : Nat) : Char := Char.ofNat (48 + n)

/-- External effects an operation can perform (beyond logging, which is
not modelled as an effect: the spec treats log lines as observable only
through log files).  `run` is an actually-executed shell command,
`atCmd` an AT command issued to the modem. -/
inductive Eff where
  | run : String → Eff
  | atCmd : String → Eff
  | write : String → Eff
  | delete : String → Eff
  | rename : String → String → Eff
  | mkdir : String → Eff
  | rmdir : String → Eff
  deriving DecidableEq, Repr

/-- Environment supplying the outcomes of external observations:
shell-command results and file-system queries.  A fixed environment makes
every embedded operation a pure function. -/
structure Env where
  /-- `(combined output, exit code)` of a shell command. -/
  run : String → String × Int
  pathExists : String → Bool
  isFile : String → Bool
  isDir : String → Bool
  listDir : String → List String
  /-- `none` models an I/O exception while reading. -/
  readFile : String → Option String
  /-- `false` models an I/O exception while writing this path. -/
  writeOk : String → Bool
  /-- `none` models `os.path.getsize` raising. -/
  sizeOf : String → Option Nat
  /-- `false` models `os.rename` onto this destination raising. -/
  renameOk : String → Bool
  /-- `false` models `os.makedirs` raising. -/
  mkdirOk : Bool
  /-- `false` models `os.rmdir` raising. -/
  rmdirOk : Bool
  /-- name returned by `tempfile.mkdtemp()`. -/
  tmpName : String

namespace ImeiGenerator

/-- The running sum of the Luhn loop: Python doubles the digits at odd
index in the reversed digit list and reduces values above 9 by 9. -/
def luhn_sum_from : Nat → List Nat → Nat
  | _, [] => 0
  | i, d :: rest =>
    let dd := if i % 2 == 1 then d * 2 else d
    (if dd < 10 then dd else dd - 9) + luhn_sum_from (i + 1) rest

/-- `ImeiGenerator._calculate_luhn_check_digit` (src/core/imei_gen.py and
bluecode/utils/generators.py, identical code). -/
def calculate_luhn_check_digit (digits : List Char) : Nat :=
  (10 - luhn_sum_from 0 (digits.reverse.map digitVal) % 10) % 10

/-- Python's `str.isdigit()`: false on the empty string, else all digits. -/
def isdigitB (l : List Char) : Bool := !l.isEmpty && l.all isAsciiDigit

/-- `ImeiGenerator.validate_imei`. -/
def validate_imei (imei : String) : Bool :=
  let l := imei.toList
  if !(isdigitB l && l.length == 15) then false
  else
    match l.getLast? with
    | none => false
    | some last => calculate_luhn_check_digit l.dropLast == digitVal last

/-- The curated TAC pool of `generate_random_imei`. -/
def common_tacs : List String :=
  ["35709505", "35332910", "35881505", "35925407", "35411402",
   "35312706", "35844206", "35850905", "35929005"]

/-- `ImeiGenerator.generate_random_imei`, as a function of the random
draws it makes: whether `random.random() < 0.7` (use a curated TAC), the
index drawn by `random.choice`, and the digit draws of `random.choices`
for a fully random TAC and for the 6-digit serial. -/
def generate_random_imei (useCommon : Bool) (tacIdx : Fin 9)
    (randTac : Fin 8 → Fin 10) (serialDigits : Fin 6 → Fin 10) : String :=
  let tac : List Char :=
    if useCommon then (common_tacs.getD tacIdx.1 "").toList
    else List.ofFn fun i : Fin 8 => digitChar (randTac i)
  let serial : List Char := List.ofFn fun i : Fin 6 => digitChar (serialDigits i)
  let base := tac ++ serial
  String.mk (base ++ [digitChar (calculate_luhn_check_digit base)])

/-- Spec-side definition, following §4.1 of the spec verbatim:
`validate_imei(s)` is "true iff `s` is exactly 15 decimal digits and
`luhn_check_digit(s[0:14]) == s[14]`".  Stated independently of the code
so the code's `validate_imei` can be proved equivalent to it. -/
def spec_validate_imei (s : String) : Prop :=
  s.toList.length = 15 ∧ (∀ c ∈ s.toList, isAsciiDigit c = true) ∧
    calculate_luhn_check_digit (s.toList.take 14) = digitVal (s.toList.getLastD ' ')

/-- Replacing the 15th (check) digit of an IMEI by `d`. -/
def mutate_check_digit (s : String) (d : Char) : String :=
  String.mk (s.toList.dropLast ++ [d])

end ImeiGenerator

namespace MacAddressGenerator

/-- The masked random integer of `generate_unicast_mac`:
`mac_int &= 0xFEFFFFFFFFFF; mac_int |= 0x020000000000`. -/
def mac_int (r : Nat) : Nat := (r &&& 0xFEFFFFFFFFFF) ||| 0x020000000000

/-- Lowercase hex digit character (the `x` format of Python). -/
def hexDigitChar (n : Nat) : Char :=
  if n < 10 then Char.ofNat (48 + n) else Char.ofNat (87 + n)

/-- `k` lowercase hex digits of `m`, least significant first. -/
def hexDigitsRev : Nat → Nat → List Char
  | 0, _ => []
  | k + 1, m => hexDigitChar (m % 16) :: hexDigitsRev k (m / 16)

/-- `format(mac_int, '012x')`: 12 zero-padded lowercase hex digits (the
argument is always below `16^12` here, so no digits are dropped). -/
def format012x (m : Nat) : List Char := (hexDigitsRev 12 m).reverse

/-- `':'.join(mac_hex[i:i+2] for i in range(0, 12, 2))` on the 12-digit
hex string: insert a colon after every pair. -/
def colonJoinPairs : List Char → List Char
  | a :: b :: c :: rest => a :: b :: ':' :: colonJoinPairs (c :: rest)
  | l => l

/-- `MacAddressGenerator.generate_unicast_mac` (src/core/mac_gen.py and
bluecode/utils/generators.py `MacGenerator`, identical code), as a
function of the uniform 48-bit draw `r` of `random.randint(0, 2**48-1)`. -/
def generate_unicast_mac (r : Nat) : String :=
  String.mk (colonJoinPairs (format012x (mac_int r)))

/-- The first octet of the generated 48-bit MAC value. -/
def first_octet (r : Nat) : Nat := mac_int r >>> 40

/-- Lowercase hex digit character class. -/
def lowerHexOk (c : Char) : Bool :=
  (decide (48 ≤ c.toNat) && decide (c.toNat ≤ 57)) ||
    (decide (97 ≤ c.toNat) && decide (c.toNat ≤ 102))

/-- "Six colon-separated lowercase two-hex-digit byte pairs". -/
def macTextOk : List Char → Bool
  | [a0, a1, s0, b0, b1, s1, c0, c1, s2, d0, d1, s3, e0, e1, s4, f0, f1] =>
    lowerHexOk a0 && lowerHexOk a1 && (s0 == ':') &&
    lowerHexOk b0 && lowerHexOk b1 && (s1 == ':') &&
    lowerHexOk c0 && lowerHexOk c1 && (s2 == ':') &&
    lowerHexOk d0 && lowerHexOk d1 && (s3 == ':') &&
    lowerHexOk e0 && lowerHexOk e1 && (s4 == ':') &&
    lowerHexOk f0 && lowerHexOk f1
  | _ => false

end MacAddressGenerator

namespace LogSanitize

/-- `[0-9A-Fa-f]` — the hex class of the MAC regex (both cases). -/
def isHexDigitC (c : Char) : Bool :=
  (decide (48 ≤ c.toNat) && decide (c.toNat ≤ 57)) ||
    (decide (97 ≤ c.toNat) && decide (c.toNat ≤ 102)) ||
    (decide (65 ≤ c.toNat) && decide (c.toNat ≤ 70))

/-- `[:-]` — the separator class of the MAC regex. -/
def isSepC (c : Char) : Bool := c == ':' || c == '-'

/-- Required character class at offset `j` of a MAC-pattern match
(`none` means the text ended before the window was complete, so there is
no match). -/
def posOk (j : Nat) : Option Char → Bool
  | some c => if j % 3 == 2 then isSepC c else isHexDigitC c
  | none => false

/-- The regex `([0-9A-Fa-f]{2}[:-]){5}([0-9A-Fa-f]{2})` matches at
position `i` of `cs`.  All quantifiers in the pattern are of fixed size,
so a match is exactly a 17-character window whose offsets `2,5,8,11,14`
are separators and whose other offsets are hex digits. -/
def mac_match_at (cs : List Char) (i : Nat) : Bool :=
  (List.range 17).all fun j => posOk j cs[i + j]?

/-- The replacement token `XX:XX:XX:XX:XX:XX`. -/
def mac_token : List Char :=
  ['X', 'X', ':', 'X', 'X', ':', 'X', 'X', ':', 'X', 'X', ':', 'X', 'X', ':', 'X', 'X']

/-- `re.sub(mac_pattern, 'XX:XX:XX:XX:XX:XX', text)`: scan left to
right; at a match emit the token and resume after the match, otherwise
copy one character.  `fuel` (instantiated with the text length) only
makes the recursion structural; it never runs out. -/
def sub_mac_go : Nat → List Char → List Char
  | 0, l => l
  | _ + 1, [] => []
  | fuel + 1, c :: cs =>
    if mac_match_at (c :: cs) 0 then mac_token ++ sub_mac_go fuel ((c :: cs).drop 17)
    else c :: sub_mac_go fuel cs

/-- One sanitization pass: the `re.sub` call of `_clean_log_file`
(bluecode/core/logs.py applies it per line, src/core/log_wiper.py to the
whole content; the pattern cannot match across a newline, so both
compute this function of the content). -/
def sub_mac (cs : List Char) : List Char := sub_mac_go cs.length cs

end LogSanitize

/-- `sub in s` for strings (Python's substring containment). -/
def strContains (s sub : String) : Bool :=
  s.toList.tails.any fun t => sub.toList.isPrefixOf t

/-- Result object of `subprocess.run` / `subprocess.CompletedProcess`
(also standing in for the caught `CalledProcessError`, which carries the
same fields). -/
structure CompletedProcess where
  returncode : Int
  stdout : String
  stderr : String
  deriving DecidableEq, Repr

namespace CommandExecutor

/-- `CommandExecutor.execute` (src/core/net.py).  In dry-run it returns
a mock success without executing anything; otherwise it runs the command
and, when `chk` (Python `check=True`) and the exit code is nonzero,
raises `CalledProcessError`, modelled by `Except.error`. -/
def execute (env : Env) (command : String) (dry_run chk : Bool) :
    Except Unit CompletedProcess × List Eff :=
  if dry_run then (Except.ok ⟨0, "", ""⟩, [])
  else
    let r := env.run command
    if chk && r.2 != 0 then (Except.error (), [Eff.run command])
    else (Except.ok ⟨r.2, r.1, ""⟩, [Eff.run command])

end CommandExecutor

namespace NetworkConfigurator

/-- The device-entry probe command of `set_wan_mac_address`. -/
def check_cmd (device_index : Int) : String :=
  "uci get network.@device[" ++ toString device_index ++ "] 2>/dev/null"

def ls_net_cmd : String := "ls -1 /sys/class/net/"

def eth0_down_cmd : String := "ip link set eth0 down"

def eth0_addr_cmd (mac : String) : String := "ip link set eth0 address " ++ mac

def eth0_up_cmd : String := "ip link set eth0 up"

def wan_get_cmd : String := "uci get network.wan.device"

def wan_set_cmd (mac : String) : String := "uci set network.wan.macaddr=" ++ mac

/-- `NetworkConfigurator._try_physical_interface_update` (src/core/net.py).
Notably the `ls` probe is executed without the dry-run flag.  The three
`ip link` commands are under a `try`; the first failure (with
`check=True`) aborts and the function returns `False`. -/
def try_physical_interface_update (env : Env) (mac : String) (dry_run : Bool) :
    Bool × List Eff :=
  match CommandExecutor.execute env ls_net_cmd false false with
  | (Except.error _, t1) => (false, t1)
  | (Except.ok ifaces, t1) =>
    if strContains ifaces.stdout "eth0" then
      match CommandExecutor.execute env eth0_down_cmd dry_run true with
      | (Except.error _, t2) => (false, t1 ++ t2)
      | (Except.ok _, t2) =>
        match CommandExecutor.execute env (eth0_addr_cmd mac) dry_run true with
        | (Except.error _, t3) => (false, t1 ++ t2 ++ t3)
        | (Except.ok _, t3) =>
          match CommandExecutor.execute env eth0_up_cmd dry_run true with
          | (Except.error _, t4) => (false, t1 ++ t2 ++ t3 ++ t4)
          | (Except.ok _, t4) => (true, t1 ++ t2 ++ t3 ++ t4)
    else (false, t1)

/-- `NetworkConfigurator._try_wan_interface_update` (src/core/net.py).
The `uci get network.wan.device` probe is executed without the dry-run
flag and with `check=False`. -/
def try_wan_interface_update (env : Env) (mac : String) (dry_run : Bool) :
    Bool × List Eff :=
  match CommandExecutor.execute env wan_get_cmd false false with
  | (Except.error _, t1) => (false, t1)
  | (Except.ok res, t1) =>
    if res.returncode == 0 then
      match CommandExecutor.execute env (wan_set_cmd mac) dry_run true with
      | (Except.error _, t2) => (false, t1 ++ t2)
      | (Except.ok _, t2) => (true, t1 ++ t2)
    else (false, t1)

/-- `NetworkConfigurator._apply_alternative_wan_mac_change`
(src/core/net.py): the physical `eth0` route is tried FIRST, the
WAN-interface route second. -/
def apply_alternative_wan_mac_change (env : Env) (mac : String) (dry_run : Bool) :
    Bool × List Eff :=
  let (p, t1) := try_physical_interface_update env mac dry_run
  if p then (true, t1)
  else
    let (w, t2) := try_wan_interface_update env mac dry_run
    (w, t1 ++ t2)

/-- `NetworkConfigurator.set_wan_mac_address` (src/core/net.py), as a
function of the generated MAC `mac`.  The surrounding `try` catches the
`CalledProcessError` of the standard-approach `uci set` and returns
`False`. -/
def set_wan_mac_address (env : Env) (device_index : Int) (mac : String)
    (dry_run : Bool) : Bool × List Eff :=
  match CommandExecutor.execute env (check_cmd device_index) dry_run false with
  | (Except.error _, t1) => (false, t1)
  | (Except.ok chk, t1) =>
    if chk.returncode != 0 && !dry_run then
      let (b, t2) := apply_alternative_wan_mac_change env mac dry_run
      (b, t1 ++ t2)
    else
      match CommandExecutor.execute env
          ("uci set network.@device[" ++ toString device_index ++ "].macaddr=" ++ mac)
          dry_run true with
      | (Except.error _, t2) => (false, t1 ++ t2)
      | (Except.ok _, t2) => (true, t1 ++ t2)

/-- `NetworkConfigurator.set_macclone_address` (src/core/net.py). -/
def set_macclone_address (env : Env) (mac : String) (dry_run : Bool) :
    Bool × List Eff :=
  match CommandExecutor.execute env ("uci set glconfig.general.macclone_addr=" ++ mac)
      dry_run true with
  | (Except.error _, t) => (false, t)
  | (Except.ok _, t) => (true, t)

/-- `NetworkConfigurator.commit_changes` (src/core/net.py). -/
def commit_changes (env : Env) (dry_run : Bool) : Bool × List Eff :=
  match CommandExecutor.execute env "uci commit network" dry_run true with
  | (Except.error _, t1) => (false, t1)
  | (Except.ok _, t1) =>
    match CommandExecutor.execute env "uci commit glconfig" dry_run true with
    | (Except.error _, t2) => (false, t1 ++ t2)
    | (Except.ok _, t2) => (true, t1 ++ t2)

/-- `NetworkConfigurator.restart_network` (src/core/net.py). -/
def restart_network (env : Env) (dry_run : Bool) : Bool × List Eff :=
  match CommandExecutor.execute env "/etc/init.d/network restart" dry_run true with
  | (Except.error _, t) => (false, t)
  | (Except.ok _, t) => (true, t)

end NetworkConfigurator

namespace SystemCommand

/-- Modelled from the spec: `SystemCommand.run_command` — the command
executor used by the `bluecode` tree (`bluecode/core/system.py`), whose
file is not part of the tree at hand; per spec §4.2 shell execution
"captures combined standard-output/standard-error text and the process
exit code; never raises — failures are reported via nonzero exit code
plus diagnostic text". -/
def run_command (env : Env) (command : String) : (String × Int) × List Eff :=
  (env.run command, [Eff.run command])

end SystemCommand

namespace NetworkManager

/-- `NetworkManager._set_wan_mac_alternative` (bluecode/core/network.py).
The FIRST alternative sets `network.wan.macaddr` directly; it is wrapped
in `try/except`, but `run_command` never raises (spec §4.2), so this
step always returns `True` and the `eth0` second alternative that
follows it in the source is unreachable. -/
def set_wan_mac_alternative (env : Env) (mac : String) (dry_run : Bool) :
    Bool × List Eff :=
  if dry_run then (true, [])
  else
    let (_, t) := SystemCommand.run_command env ("uci set network.wan.macaddr=" ++ mac)
    (true, t)

/-- `NetworkManager.set_wan_mac_address` (bluecode/core/network.py).
The device-entry probe runs unconditionally (even in dry-run); the
alternative path is entered only when the probe fails AND dry-run is
off. -/
def set_wan_mac_address (env : Env) (device_index : Int) (mac : String)
    (dry_run : Bool) : Bool × List Eff :=
  let ((_, code), t1) :=
    SystemCommand.run_command env (NetworkConfigurator.check_cmd device_index)
  if code != 0 && !dry_run then
    let (b, t2) := set_wan_mac_alternative env mac dry_run
    (b, t1 ++ t2)
  else
    if !dry_run then
      let (_, t2) := SystemCommand.run_command env
        ("uci set network.@device[" ++ toString device_index ++ "].macaddr=" ++ mac)
      (true, t1 ++ t2)
    else (true, t1)

end NetworkManager

namespace BSSID

/-- `BSSID.run_uci_command` (src/core/bssid.py): in dry-run, report
success without executing; otherwise run via `Cmd.run_command` (which
never raises: it catches every exception and returns `(str(e), 1)`) and
succeed iff the exit code is zero. -/
def run_uci_command (env : Env) (command : String) (dry_run : Bool) :
    (Bool × String) × List Eff :=
  if dry_run then ((true, "Dry run"), [])
  else
    let (out, code) := env.run command
    if code == 0 then ((true, out), [Eff.run command])
    else ((false, "Error: " ++ out), [Eff.run command])

/-- The `uci set` command built for wireless interface `idx`. -/
def bssid_set_cmd (idx : Int) (mac : String) : String :=
  "uci set wireless.@wifi-iface[" ++ toString idx ++ "].macaddr=" ++ mac

/-- The per-interface loop of `set_bssid_for_interfaces`: `macs k` is
the MAC generated by `generate_unicast_mac` at the `k`-th iteration.
Returns the accumulated `(success, changes)` and the trace. -/
def set_bssid_loop (env : Env) (macs : Nat → String) (dry_run : Bool) :
    List Int → Nat → (Bool × List (Int × String)) × List Eff
  | [], _ => ((true, []), [])
  | idx :: rest, k =>
    let mac := macs k
    let ((ok, _), t1) := run_uci_command env (bssid_set_cmd idx mac) dry_run
    let ((s, ch), t2) := set_bssid_loop env macs dry_run rest (k + 1)
    ((ok && s, if ok then (idx, mac) :: ch else ch), t1 ++ t2)

/-- `BSSID.set_bssid_for_interfaces` (src/core/bssid.py): run the
per-interface loop, then commit the wireless configuration only when
dry-run is off, every set succeeded and at least one change was
recorded; a commit failure clears the overall success flag. -/
def set_bssid_for_interfaces (env : Env) (macs : Nat → String)
    (interfaces : List Int) (dry_run : Bool) :
    (Bool × List (Int × String)) × List Eff :=
  let ((s, ch), t) := set_bssid_loop env macs dry_run interfaces 0
  if !dry_run && s && !ch.isEmpty then
    let ((cs, _), tc) := run_uci_command env "uci commit wireless" dry_run
    ((s && cs, ch), t ++ tc)
  else ((s, ch), t)

/-- `BSSID.reset_wifi` (src/core/bssid.py). -/
def reset_wifi (env : Env) (dry_run : Bool) : Bool × List Eff :=
  let ((s, _), t) := run_uci_command env "wifi" dry_run
  (s, t)

end BSSID

namespace ModemController

/-- Environment of the modem controller: the response text of the
`k`-th AT command issued in a run, and the presence of the modem TTY
device node at the `t`-th presence poll. -/
structure ModemEnv where
  resp : Nat → String → String
  present : Nat → Bool

/-- `\w` — a word character `[A-Za-z0-9_]` (ASCII). -/
def word_char (c : Char) : Bool :=
  isAsciiDigit c || (decide (97 ≤ c.toNat) && decide (c.toNat ≤ 122)) ||
    (decide (65 ≤ c.toNat) && decide (c.toNat ≤ 90)) || c == '_'

/-- The regex `\bOK\b` with `re.IGNORECASE` matches somewhere in `cs`. -/
def has_ok_token : Option Char → List Char → Bool
  | _, [] => false
  | prev, c :: cs =>
    let boundary : Bool := match prev with | none => true | some p => !word_char p
    let isO : Bool := c == 'O' || c == 'o'
    let isK : Bool := match cs with | k :: _ => k == 'K' || k == 'k' | [] => false
    let afterOk : Bool := match cs with
      | _ :: d :: _ => !word_char d
      | _ => true
    if boundary && isO && isK && afterOk then true
    else has_ok_token (some c) cs

/-- `Cmd.run_at_command` (src/core/cmd.py), with the `k`-th response
text supplied by the environment.  Both the `gl_modem` route and the raw
serial route determine success by the presence of the `\bOK\b` token in
the response (exit code 0 iff found); the route taken does not change
that, so the embedding collapses the two. -/
def run_at_command (env : ModemEnv) (k : Nat) (command : String) :
    (String × Int) × Nat × List Eff :=
  let out := env.resp k command
  let code : Int := if has_ok_token none out.toList then 0 else 1
  ((out, code), k + 1, [Eff.atCmd command])

/-- `ModemController.disable_radio` (`AT+CFUN=4`). -/
def disable_radio (env : ModemEnv) (k : Nat) : Bool × Nat × List Eff :=
  let ((_, code), k1, t) := run_at_command env k "AT+CFUN=4"
  (code == 0, k1, t)

/-- Length of the leading digit run. -/
def digit_run_len : List Char → Nat
  | [] => 0
  | c :: cs => if isAsciiDigit c then digit_run_len cs + 1 else 0

/-- `re.search(r'\b([0-9]{lo,hi})\b', text)`: the first position with a
word boundary before it whose maximal digit run has length within
`[lo, hi]` and ends at a word boundary (the quantifier can only shorten
inside the run, where the trailing `\b` always fails, so only the
maximal run can match). -/
def search_digit_run (lo hi : Nat) : Option Char → List Char → Option String
  | _, [] => none
  | prev, c :: cs =>
    let boundary : Bool := match prev with | none => true | some p => !word_char p
    let len := digit_run_len (c :: cs)
    let after := (c :: cs).drop len
    let afterOk : Bool := match after with | [] => true | d :: _ => !word_char d
    if boundary && decide (lo ≤ len) && decide (len ≤ hi) && afterOk then
      some (String.mk ((c :: cs).take len))
    else search_digit_run lo hi (some c) cs

/-- `ModemController.get_imsi` (src/core/modem.py): issue `AT+CIMI`,
return `None` on empty output, else the first `\b[0-9]{6,15}\b` run. -/
def get_imsi (env : ModemEnv) (k : Nat) : Option String × Nat × List Eff :=
  let ((out, _), k1, t) := run_at_command env k "AT+CIMI"
  if out.isEmpty then (none, k1, t)
  else (search_digit_run 6 15 none out.toList, k1, t)

/-- `ModemController.wait_for_device_state` (src/core/modem.py): poll
device presence once per loop iteration until it matches `should` or
the bounded wait is exhausted.  `fuel` is the number of polls the
timeout admits (timeout divided by the poll interval); `t` is the
global poll counter fed to the environment. -/
def wait_for_device_state (env : ModemEnv) (should : Bool) :
    Nat → Nat → Bool × Nat
  | 0, t => (false, t)
  | fuel + 1, t =>
    if env.present t == should then (true, t + 1)
    else wait_for_device_state env should fuel (t + 1)

/-- The IMSI verification loop of `restart_modem`: up to `n` attempts,
stopping at the first successful IMSI read. -/
def imsi_attempts (env : ModemEnv) : Nat → Nat → Option String × Nat × List Eff
  | 0, k => (none, k, [])
  | n + 1, k =>
    match get_imsi env k with
    | (some s, k1, t) => (some s, k1, t)
    | (none, k1, t) =>
      let (r, k2, t2) := imsi_attempts env n k1
      (r, k2, t ++ t2)

/-- `ModemController.restart_modem` (src/core/modem.py): issue
`AT+QPOWD` (a failure only logs a warning), wait for the device node to
disappear (30s timeout, 1s poll — result only logged), wait for it to
reappear (60s timeout, 2s poll); if it never reappears return `False`
without any IMSI query; otherwise verify with up to 10 IMSI reads and
fail if all are exhausted. -/
def restart_modem (env : ModemEnv) : Bool × List Eff :=
  let ((_, _), k1, t1) := run_at_command env 0 "AT+QPOWD"
  let (_, clk1) := wait_for_device_state env false 30 0
  let (okPresent, _) := wait_for_device_state env true 30 clk1
  if !okPresent then (false, t1)
  else
    let (r, _, t2) := imsi_attempts env 10 k1
    (r.isSome, t1 ++ t2)

/-- The format gate of `set_imei`: `re.match(r'^\d{15}$', imei)`.
Python's `$` (without `re.MULTILINE`) matches at the end of the string
or just before one newline at the very end, so the regex accepts
exactly the strings of 15 decimal digits optionally followed by a
single trailing `'\n'`. -/
def imei_format_ok (imei : String) : Bool :=
  let l := imei.toList
  (l.length == 15 && l.all isAsciiDigit) ||
    (l.length == 16 && (l.take 15).all isAsciiDigit && l.getLast? == some '\n')

/-- `ModemController.set_imei` (src/core/modem.py): reject a malformed
IMEI immediately; otherwise disable the radio (best effort — a failure
only logs), issue `AT+EGMR=1,7,"imei"`, and on success persist the IMEI
to the status file and either reboot (if `reboot_after`) or write the
reboot-required marker.  File-write failures are caught and only
logged, so the write effects are always attempted. -/
def set_imei (env : ModemEnv) (imei : String) (reboot_after : Bool) :
    Bool × List Eff :=
  if !imei_format_ok imei then (false, [])
  else
    let (_, k1, t1) := disable_radio env 0
    let ((_, code), _, t2) := run_at_command env k1 ("AT+EGMR=1,7,\"" ++ imei ++ "\"")
    if code != 0 then (false, t1 ++ t2)
    else
      let t3 := [Eff.mkdir "/tmp/modem.1-1.2", Eff.write "/tmp/modem.1-1.2/modem-imei"]
      if reboot_after then (true, t1 ++ t2 ++ t3 ++ [Eff.run "/sbin/reboot"])
      else (true, t1 ++ t2 ++ t3 ++ [Eff.write "/tmp/reboot_required"])

end ModemController

/-- A handler attached by the logger's one-time initialization. -/
inductive Handler where
  | console : Nat → Handler
  | file : String → Nat → Handler
  deriving DecidableEq, Repr

/-- The configuration the one-time initialization installs on the
underlying `logging.Logger`. -/
structure LoggerCfg where
  name : String
  level : Nat
  handlers : List Handler
  deriving DecidableEq, Repr

/-- Handlers installed by the initialization body: a console handler,
plus a file handler when a log file was supplied. -/
def mkHandlers (log_file : Option String) (level : Nat) : List Handler :=
  [Handler.console level] ++
    (match log_file with | some p => [Handler.file p level] | none => [])

namespace BlueLogger

/-- The class-level state of the bluecode `Logger` singleton
(bluecode/utils/logger.py): `_instance` — the single instance (an object
identity paired with its configured underlying logger, `none` before
`__init__` configures it) — and the `_initialized` flag. -/
structure ClassState where
  inst : Option (Nat × Option LoggerCfg)
  initialized : Bool
  deriving DecidableEq, Repr

/-- The pristine class state at import time. -/
def state0 : ClassState := ⟨none, false⟩

/-- `Logger.__new__`: create the instance only if `_instance is None`;
`fresh` is the identity a fresh allocation would get. -/
def new (st : ClassState) (fresh : Nat) : Nat × ClassState :=
  match st.inst with
  | some (i, _) => (i, st)
  | none => (fresh, { st with inst := some (fresh, none) })

/-- `Logger.__init__`: configure the logger only if the class has not
been initialized yet. -/
def init (st : ClassState) (selfId : Nat) (name : String)
    (log_file : Option String) (level : Nat) : ClassState :=
  if st.initialized then st
  else ⟨some (selfId, some ⟨name, level, mkHandlers log_file level⟩), true⟩

/-- `Logger(name, log_file, level)`: Python always runs `__new__` then
`__init__` on its result. -/
def construct (st : ClassState) (name : String) (log_file : Option String)
    (level : Nat) (fresh : Nat) : Nat × ClassState :=
  let (i, st1) := new st fresh
  (i, init st1 i name log_file level)

end BlueLogger

namespace SrcLogger

/-- Class-level state of the src-tree `Logger` singleton
(src/lib/logger.py): only `_instance`; `__new__` sets the new
instance's `logger` attribute to `None`, and `__init__` configures it
only when that attribute is still `None`. -/
structure ClassState where
  inst : Option (Nat × Option LoggerCfg)
  deriving DecidableEq, Repr

def state0 : ClassState := ⟨none⟩

/-- `Logger.__new__` of src/lib/logger.py. -/
def new (st : ClassState) (fresh : Nat) : Nat × ClassState :=
  match st.inst with
  | some (i, _) => (i, st)
  | none => (fresh, ⟨some (fresh, none)⟩)

/-- `Logger.__init__` of src/lib/logger.py: runs the configuration body
only when `self.logger is None` (the `if not self.logger.handlers`
guard inside is true for a freshly created `logging.getLogger`, which
has no handlers yet). -/
def init (st : ClassState) (name : String) (log_file : Option String)
    (level : Nat) : ClassState :=
  match st.inst with
  | some (i, none) => ⟨some (i, some ⟨name, level, mkHandlers log_file level⟩)⟩
  | _ => st

def construct (st : ClassState) (name : String) (log_file : Option String)
    (level : Nat) (fresh : Nat) : Nat × ClassState :=
  let (i, st1) := new st fresh
  (i, init st1 name log_file level)

end SrcLogger

namespace LogManager

def CLIENT_DB_PATH : String := "/etc/oui-tertf"

def CLIENT_DB_FILE : String := "/etc/oui-tertf/client.db"

/-- `LogManager.LOG_FILES` (bluecode/core/logs.py). -/
def LOG_FILES : List String :=
  ["/var/log/messages", "/var/log/syslog", "/var/log/daemon.log",
   "/var/log/wifi.log", "/var/log/firewall.log", "/tmp/dhcp.leases",
   "/tmp/dhcp.log", "/tmp/dnsmasq.log", "/tmp/state/dhcp.leases"]

/-- `LogManager.LOG_DIRS` (bluecode/core/logs.py). -/
def LOG_DIRS : List String := ["/var/log/", "/tmp/log/", "/tmp/run/"]

/-- `LogManager.RELATED_SERVICES` (bluecode/core/logs.py). -/
def RELATED_SERVICES : List String :=
  ["gl-tertf", "gl_clients", "log", "syslog", "rsyslog", "syslog-ng"]

/-- `LogManager.secure_delete_file` (bluecode/core/logs.py): try
`shred` first (`run_command` never raises, so its `except` is dead; a
nonzero code falls through); then, if the file exists, three overwrite
passes (zeros, random, zeros — collapsed to one `writeOk` knob, one
effect per pass) and an `os.remove`.  Any exception is caught and makes
the function return `False`. -/
def secure_delete_file (env : Env) (filepath : String) : Bool × List Eff :=
  let shredCmd := "shred --force --zero --remove " ++ filepath
  let t0 := [Eff.run shredCmd]
  if (env.run shredCmd).2 == 0 then (true, t0)
  else if env.pathExists filepath then
    if env.writeOk filepath then
      (true, t0 ++ [Eff.write filepath, Eff.write filepath, Eff.write filepath,
                    Eff.delete filepath])
    else (false, t0 ++ [Eff.write filepath])
  else (true, t0)

/-- `LogManager.secure_client_database` (bluecode/core/logs.py). In
dry-run it only logs and reports success.  Otherwise: ensure the client
db directory exists, make a scratch tmpfs, back the db up, securely
delete the original, remount a tmpfs at the db location and restore the
backup, then tear the scratch mount down.  Any raising step is caught
and the function returns `False` (`run_command` itself never raises). -/
def secure_client_database (env : Env) (dry_run : Bool) : Bool × List Eff :=
  if dry_run then (true, [])
  else
    let tMk : List Eff := if env.pathExists CLIENT_DB_PATH then [] else [Eff.mkdir CLIENT_DB_PATH]
    if !env.pathExists CLIENT_DB_PATH && !env.mkdirOk then (false, tMk)
    else
      let tmp := env.tmpName
      let t1 := tMk ++ [Eff.run ("mount -t tmpfs tmpfs " ++ tmp)]
      let (t2, _delOk) :=
        if env.pathExists CLIENT_DB_FILE then
          let (dOk, dt) := secure_delete_file env CLIENT_DB_FILE
          ([Eff.run ("cp -a " ++ CLIENT_DB_FILE ++ " " ++ tmp ++ "/")] ++ dt, dOk)
        else ([], true)
      let t3 := [Eff.run ("umount -t tmpfs -l " ++ CLIENT_DB_PATH),
                 Eff.run ("mount -t tmpfs tmpfs " ++ CLIENT_DB_PATH)]
      let t4 :=
        if env.pathExists (tmp ++ "/client.db") then
          [Eff.run ("cp -a " ++ tmp ++ "/client.db " ++ CLIENT_DB_PATH ++ "/")]
        else []
      let t5 := [Eff.run ("umount -t tmpfs -l " ++ tmp)]
      if env.rmdirOk then (true, t1 ++ t2 ++ t3 ++ t4 ++ t5 ++ [Eff.rmdir tmp])
      else (false, t1 ++ t2 ++ t3 ++ t4 ++ t5)
  -- `_delOk` is unused: the source ignores the return value of
  -- `secure_delete_file` here.

/-- `LogManager._clean_log_file` (bluecode/core/logs.py): in dry-run
only log; a missing file is success; otherwise read the file, write the
line-wise MAC-sanitized content (`LogSanitize.sub_mac` of each line) to
`<file>.new`, securely delete the original (result ignored) and rename
the sanitized file into place.  A raising read/write/rename is caught
and yields `False`. -/
def clean_log_file (env : Env) (log_file : String) (dry_run : Bool) :
    Bool × List Eff :=
  if dry_run then (true, [])
  else if !env.pathExists log_file then (true, [])
  else
    match env.readFile log_file with
    | none => (false, [])
    | some _ =>
      let temp := log_file ++ ".new"
      if !env.writeOk temp then (false, [Eff.write temp])
      else
        let (_, dt) := secure_delete_file env log_file
        if env.renameOk log_file then
          (true, Eff.write temp :: dt ++ [Eff.rename temp log_file])
        else (false, Eff.write temp :: dt)

/-- Does the text contain a MAC-pattern match anywhere? -/
def contains_mac (cs : List Char) : Bool :=
  (List.range cs.length).any fun i => LogSanitize.mac_match_at cs i

/-- `LogManager._is_log_file` (bluecode/core/logs.py): extension
allowlist, then a 10 MB size ceiling, then a sniff of up to the first
100 lines for a MAC pattern (read errors make the sniff fail). -/
def is_log_file (env : Env) (filepath : String) : Bool :=
  if [".log", ".txt", ".leases", ".db", ".sqlite", ".json"].any
      (fun e => filepath.endsWith e) then true
  else
    match env.sizeOf filepath with
    | none => false
    | some n =>
      if n > 10 * 1024 * 1024 then false
      else
        match env.readFile filepath with
        | none => false
        | some content =>
          ((content.splitOn "\n").take 100).any fun l => contains_mac l.toList

/-- The per-directory inner loop of `_find_and_clean_log_files`. -/
def find_clean_dir (env : Env) (dir : String) (dry_run : Bool) :
    List String → List Eff
  | [] => []
  | f :: rest =>
    let fp := dir ++ f
    let t :=
      if env.isFile fp && is_log_file env fp then (clean_log_file env fp dry_run).2
      else []
    t ++ find_clean_dir env dir dry_run rest

/-- `LogManager._find_and_clean_log_files` (bluecode/core/logs.py):
for each known log directory that exists, clean every file classified
as log-like (individual results ignored).  Always returns `True`. -/
def find_and_clean_log_files (env : Env) (dry_run : Bool) : Bool × List Eff :=
  (true,
    (LOG_DIRS.map fun d =>
      if env.pathExists d && env.isDir d then find_clean_dir env d dry_run (env.listDir d)
      else []).flatten)

/-- `LogManager._clean_dmesg` (bluecode/core/logs.py). -/
def clean_dmesg (_env : Env) (dry_run : Bool) : Bool × List Eff :=
  if dry_run then (true, [])
  else (true, [Eff.run "dmesg -c > /dev/null"])

/-- `LogManager._restart_related_services` (bluecode/core/logs.py). -/
def restart_related_services : Bool × List Eff :=
  (true, RELATED_SERVICES.map fun s => Eff.run ("/etc/init.d/" ++ s ++ " restart"))

/-- `LogManager.check_init_script` (bluecode/core/logs.py). -/
def check_init_script (env : Env) : Bool × List Eff :=
  let ex := env.pathExists "/etc/init.d/gl-mac-security"
  let lsCmd := "ls -la /etc/rc.d/S*gl-mac-security 2>/dev/null"
  let t := if ex then [Eff.run lsCmd] else []
  if !ex then (false, t)
  else if (env.run lsCmd).2 == 0 then (true, t)
  else (false, t)

/-- Step 2 of `wipe_mac_logs`: the loop over the fixed known-log list,
accumulating the success flag. -/
def clean_known_logs (env : Env) (dry_run : Bool) : List String → Bool × List Eff
  | [] => (true, [])
  | f :: rest =>
    let (b, t) :=
      if env.pathExists f && env.isFile f then clean_log_file env f dry_run
      else (true, [])
    let (b2, t2) := clean_known_logs env dry_run rest
    (b && b2, t ++ t2)

/-- `LogManager.wipe_mac_logs` (bluecode/core/logs.py): relocate the
client database, clean the known log files, then best-effort steps —
directory discovery scrub, dmesg clear, and (when not dry-run) sync,
page-cache drop, service restarts and the boot-persistence check —
whose outcomes do not touch the success flag. -/
def wipe_mac_logs (env : Env) (dry_run : Bool) : Bool × List Eff :=
  let (s1, t1) := secure_client_database env dry_run
  let (s2, t2) := clean_known_logs env dry_run LOG_FILES
  let (_, t3) := find_and_clean_log_files env dry_run
  let (_, t4) := clean_dmesg env dry_run
  let t5 :=
    if !dry_run then [Eff.run "sync", Eff.run "echo 1 > /proc/sys/vm/drop_caches"]
    else []
  let t6 := if !dry_run then restart_related_services.2 else []
  let t7 := if !dry_run then (check_init_script env).2 else []
  (s1 && s2, t1 ++ t2 ++ t3 ++ t4 ++ t5 ++ t6 ++ t7)

end LogManager

/-! Concrete environments used to evaluate the embedded operations on
explicit inputs. -/

/-- A neutral environment: every command succeeds with empty output, no
file exists, file writes succeed. -/
def baseEnv : Env where
  run := fun _ => ("", 0)
  pathExists := fun _ => false
  isFile := fun _ => false
  isDir := fun _ => false
  listDir := fun _ => []
  readFile := fun _ => none
  writeOk := fun _ => true
  sizeOf := fun _ => none
  renameOk := fun _ => true
  mkdirOk := true
  rmdirOk := true
  tmpName := "/tmp/tmpscratch"

/-- Device entry 5 missing from configuration, `eth0` present in
`/sys/class/net/`, every other command succeeding. -/
def c6env : Env :=
  { baseEnv with
    run := fun c =>
      if c = NetworkConfigurator.check_cmd 5 then ("", 1)
      else if c = NetworkConfigurator.ls_net_cmd then ("lo\neth0\n", 0)
      else ("", 0) }

/-- Device entry 5 missing, no `eth0`-class interface, WAN interface
discoverable and settable. -/
def c6envNoEth : Env :=
  { baseEnv with
    run := fun c =>
      if c = NetworkConfigurator.check_cmd 5 then ("", 1) else ("ok", 0) }

/-- Device entry 5 missing, no `eth0`, and the WAN-interface probe
failing as well: every fallback step fails. -/
def c6envNoEthFail : Env :=
  { baseEnv with
    run := fun c =>
      if c = NetworkConfigurator.check_cmd 5 then ("", 1)
      else if c = NetworkConfigurator.wan_get_cmd then ("", 1)
      else ("", 0) }

/-- An environment in which every command fails. -/
def envFail : Env := { baseEnv with run := fun _ => ("", 1) }

/-- A constant MAC-generator stream. -/
def macsConst : Nat → String := fun _ => "02:00:00:00:00:01"

/-- Modem environment whose device node is never present. -/
def mEnvAbsent : ModemController.ModemEnv :=
  { resp := fun _ _ => "ERROR", present := fun _ => false }

/-- Modem environment whose device node is always present but whose AT
responses are empty (no IMSI can ever be read). -/
def mEnvNoImsi : ModemController.ModemEnv :=
  { resp := fun _ _ => "", present := fun _ => true }

/-- Modem environment in which every AT command answers `OK`. -/
def mEnvOk : ModemController.ModemEnv :=
  { resp := fun _ _ => "OK", present := fun _ => true }


/-! ## Theorems -/

/-! ### Generic helpers -/

theorem bool_eq_of_iff {a b : Bool} (h : a = true ↔ b = true) : a = b := by
  cases a <;> cases b <;> simp_all

theorem all_range_congr {n : Nat} {f g : Nat → Bool}
    (h : ∀ j, j < n → f j = g j) : (List.range n).all f = (List.range n).all g := by
  apply bool_eq_of_iff
  simp only [List.all_eq_true, List.mem_range]
  constructor
  · intro H j hj; rw [← h j hj]; exact H j hj
  · intro H j hj; rw [h j hj]; exact H j hj

theorem string_mk_toList (l : List Char) : (String.mk l).toList = l := rfl

theorem digitVal_digitChar : ∀ n, n < 10 → digitVal (digitChar n) = n := by decide

theorem isAsciiDigit_digitChar : ∀ n, n < 10 → isAsciiDigit (digitChar n) = true := by decide

theorem digit_char_inj (c d : Char) (hc : isAsciiDigit c = true)
    (hd : isAsciiDigit d = true) (h : digitVal c = digitVal d) : c = d := by
  simp only [isAsciiDigit, Bool.and_eq_true, decide_eq_true_eq] at hc hd
  have hcd : c.toNat = d.toNat := by
    unfold digitVal at h
    omega
  have h1 : Char.ofNat c.toNat = Char.ofNat d.toNat := by rw [hcd]
  rwa [Char.ofNat_toNat, Char.ofNat_toNat] at h1

/-! ### C9: the logger singleton ignores later construction arguments -/

/-- C9.  Every construction of `Logger` returns the one same instance,
and only the first construction's arguments take effect: starting from
the pristine class state, a second construction with any (possibly
different) name, log file or level returns the same object identity and
leaves the class state — instance, handlers, level — exactly as the
first construction left it.  Proved for both the bluecode and the src
variants of the singleton. -/
theorem logger_singleton_first_init_wins :
    ∀ (n1 n2 : String) (f1 f2 : Option String) (l1 l2 : Nat) (id1 id2 : Nat),
      BlueLogger.construct
          (BlueLogger.construct BlueLogger.state0 n1 f1 l1 id1).2 n2 f2 l2 id2
        = BlueLogger.construct BlueLogger.state0 n1 f1 l1 id1
      ∧ SrcLogger.construct
          (SrcLogger.construct SrcLogger.state0 n1 f1 l1 id1).2 n2 f2 l2 id2
        = SrcLogger.construct SrcLogger.state0 n1 f1 l1 id1 := by
  intro n1 n2 f1 f2 l1 l2 id1 id2
  constructor
  · rfl
  · rfl

/-! ### C7: `set_imei` rejects malformed IMEIs without side effects -/

/-- Counterexample to C7 as stated.  The claim says every string that
is not exactly 15 decimal digits is rejected immediately with no AT
command, no file write and no reboot.  But the format gate is
`re.match(r'^\d{15}$', imei)`, and Python's `$` also matches just
before one trailing newline: `"123456789012345\n"` — 16 characters,
so not exactly 15 decimal digits — passes the gate, and the run issues
the radio-disable and IMEI-write AT commands, writes the status file
and the reboot-required marker, and reports success. -/
theorem set_imei_rejects_invalid_format_counterexample :
    ¬("123456789012345\n".toList.length = 15
        ∧ "123456789012345\n".toList.all isAsciiDigit = true)
    ∧ ModemController.set_imei mEnvOk "123456789012345\n" false
        = (true, [Eff.atCmd "AT+CFUN=4",
                  Eff.atCmd "AT+EGMR=1,7,\"123456789012345\n\"",
                  Eff.mkdir "/tmp/modem.1-1.2",
                  Eff.write "/tmp/modem.1-1.2/modem-imei",
                  Eff.write "/tmp/reboot_required"]) := by
  constructor
  · decide
  · decide

/-- C7, amended.  For every string rejected by the `^\d{15}$` gate —
that is, every string that is neither exactly 15 decimal digits nor 15
decimal digits followed by one trailing newline (the one extra shape
Python's `$` lets through) — `set_imei` returns failure immediately
with an empty effect trace: no AT command (neither the radio-disable
nor the IMEI write), no status file or reboot-marker write, no reboot —
for both values of `reboot_after` and every modem environment. -/
theorem set_imei_rejects_invalid_format :
    ∀ (env : ModemController.ModemEnv) (imei : String) (reboot_after : Bool),
      ModemController.imei_format_ok imei = false →
      ModemController.set_imei env imei reboot_after = (false, []) := by
  intro env imei rb h
  simp [ModemController.set_imei, h]

/-- Witness for C7 at concrete malformed inputs (too short; right
length but with a non-digit), for both `reboot_after` values. -/
theorem set_imei_rejects_invalid_format_witness :
    ModemController.set_imei mEnvNoImsi "1234" true = (false, [])
    ∧ ModemController.set_imei mEnvAbsent "00000000000000a" false = (false, []) :=
  ⟨set_imei_rejects_invalid_format mEnvNoImsi "1234" true (by decide),
   set_imei_rejects_invalid_format mEnvAbsent "00000000000000a" false (by decide)⟩

/-! ### C3: dry-run invariance -/

/-- Under dry-run, every iteration of the BSSID loop "succeeds" without
executing anything. -/
theorem set_bssid_loop_dry (env : Env) (macs : Nat → String) :
    ∀ (ifs : List Int) (k : Nat),
      (BSSID.set_bssid_loop env macs true ifs k).1.1 = true
      ∧ (BSSID.set_bssid_loop env macs true ifs k).2 = [] := by
  intro ifs
  induction ifs with
  | nil => intro k; exact ⟨rfl, rfl⟩
  | cons i rest ih =>
    intro k
    have h := ih (k + 1)
    simp [BSSID.set_bssid_loop, BSSID.run_uci_command, h.1, h.2]

/-- C3.  Dry-run invariance: with dry-run active, each mutating
operation — WAN MAC set, MAC-clone set, BSSID set, commit,
network/WiFi restart, log sanitization, client-database relocation and
kernel ring-buffer clear — performs no external effect at all (its
effect trace is empty: no command executed, no file written or
deleted) and still reports success, in every environment.  At the
bottom, `CommandExecutor.execute` itself returns the mocked success
result without touching the system. -/
theorem dry_run_invariance :
    ∀ (env : Env) (device_index : Int) (mac : String) (macs : Nat → String)
      (interfaces : List Int) (command f : String) (chk : Bool),
      CommandExecutor.execute env command true chk = (Except.ok ⟨0, "", ""⟩, [])
      ∧ NetworkConfigurator.set_wan_mac_address env device_index mac true = (true, [])
      ∧ NetworkConfigurator.set_macclone_address env mac true = (true, [])
      ∧ NetworkConfigurator.commit_changes env true = (true, [])
      ∧ NetworkConfigurator.restart_network env true = (true, [])
      ∧ (BSSID.set_bssid_for_interfaces env macs interfaces true).1.1 = true
      ∧ (BSSID.set_bssid_for_interfaces env macs interfaces true).2 = []
      ∧ BSSID.reset_wifi env true = (true, [])
      ∧ LogManager.clean_log_file env f true = (true, [])
      ∧ LogManager.secure_client_database env true = (true, [])
      ∧ LogManager.clean_dmesg env true = (true, []) := by
  intro env device_index mac macs interfaces command f chk
  have hloop := set_bssid_loop_dry env macs interfaces 0
  refine ⟨rfl, rfl, rfl, rfl, rfl, ?_, ?_, rfl, rfl, rfl, rfl⟩
  · rcases hl : BSSID.set_bssid_loop env macs true interfaces 0 with ⟨⟨s, ch⟩, t⟩
    rw [hl] at hloop
    simp only at hloop
    simp [BSSID.set_bssid_for_interfaces, hl, hloop.1]
  · rcases hl : BSSID.set_bssid_loop env macs true interfaces 0 with ⟨⟨s, ch⟩, t⟩
    rw [hl] at hloop
    simp only at hloop
    simp [BSSID.set_bssid_for_interfaces, hl, hloop.2]

/-! ### C8: aggregate success of the full wipe -/

/-- The known-log loop succeeds exactly when every existing file in the
list sanitizes successfully. -/
theorem clean_known_logs_all (env : Env) (dry : Bool) :
    ∀ fs : List String,
      (LogManager.clean_known_logs env dry fs).1 =
        fs.all fun f =>
          if env.pathExists f && env.isFile f
          then (LogManager.clean_log_file env f dry).1 else true := by
  intro fs
  induction fs with
  | nil => rfl
  | cons f rest ih =>
    simp only [LogManager.clean_known_logs, List.all_cons, ← ih]
    split <;> simp [LogManager.clean_known_logs]

/-- C8.  `wipe_mac_logs` returns success iff the client-database
relocation succeeded and the sanitization of every existing file in the
fixed known-log list succeeded; the outcomes of the directory-discovery
scrub and of the kernel ring-buffer clear do not occur in the returned
value at all. -/
theorem wipe_mac_logs_aggregate_success :
    ∀ (env : Env) (dry_run : Bool),
      (LogManager.wipe_mac_logs env dry_run).1 =
        ((LogManager.secure_client_database env dry_run).1 &&
          LogManager.LOG_FILES.all fun f =>
            if env.pathExists f && env.isFile f
            then (LogManager.clean_log_file env f dry_run).1 else true) := by
  intro env dry
  rw [← clean_known_logs_all env dry LogManager.LOG_FILES]
  rcases h1 : LogManager.secure_client_database env dry with ⟨s1, t1⟩
  rcases h2 : LogManager.clean_known_logs env dry LogManager.LOG_FILES with ⟨s2, t2⟩
  simp [LogManager.wipe_mac_logs, h1, h2]

/-! ### C10: commit gating in BSSID randomization -/

/-- A per-interface `uci set` command is never the wireless commit
command (the lengths already differ). -/
theorem bssid_set_cmd_ne_commit (idx : Int) (mac : String) :
    BSSID.bssid_set_cmd idx mac ≠ "uci commit wireless" := by
  intro h
  have hlen : (("uci set wireless.@wifi-iface[" ++ toString idx ++ "].macaddr=" ++ mac)).length
      = ("uci commit wireless" : String).length := congrArg String.length h
  rw [String.length_append, String.length_append, String.length_append] at hlen
  have h1 : ("uci set wireless.@wifi-iface[" : String).length = 29 := rfl
  have h2 : ("].macaddr=" : String).length = 10 := rfl
  have h3 : ("uci commit wireless" : String).length = 19 := rfl
  omega

/-- The per-interface loop never issues the wireless commit. -/
theorem set_bssid_loop_no_commit (env : Env) (macs : Nat → String) (dry : Bool) :
    ∀ (ifs : List Int) (k : Nat),
      Eff.run "uci commit wireless" ∉ (BSSID.set_bssid_loop env macs dry ifs k).2 := by
  intro ifs
  induction ifs with
  | nil => intro k h; exact absurd h (List.not_mem_nil _)
  | cons i rest ih =>
    intro k h
    rcases hc : BSSID.run_uci_command env (BSSID.bssid_set_cmd i (macs k)) dry with ⟨rc, tc⟩
    have htc : tc = [] ∨ tc = [Eff.run (BSSID.bssid_set_cmd i (macs k))] := by
      unfold BSSID.run_uci_command at hc
      split at hc
      · left; simpa using (congrArg Prod.snd hc).symm
      · right; simpa [apply_ite Prod.snd] using (congrArg Prod.snd hc).symm
    simp only [BSSID.set_bssid_loop, hc] at h
    rcases hr : BSSID.set_bssid_loop env macs dry rest (k + 1) with ⟨⟨s2, ch2⟩, t2⟩
    rw [hr] at h
    simp only [List.mem_append] at h
    rcases h with h | h
    · rcases htc with rfl | rfl
      · exact absurd h (List.not_mem_nil _)
      · rcases List.mem_singleton.mp h with heq
        exact bssid_set_cmd_ne_commit i (macs k) (Eff.run.injEq _ _ ▸ heq ▸ rfl)
    · exact ih (k + 1) (hr ▸ h)

/-- C10.  The wireless commit is issued iff dry-run is off, every
per-interface BSSID set succeeded and at least one change was recorded;
when any interface's set fails, no commit is issued at all, the trace is
exactly the per-interface trace (so the successful sets remain staged,
uncommitted), and the operation reports overall failure. -/
theorem bssid_commit_gating :
    ∀ (env : Env) (macs : Nat → String) (interfaces : List Int) (dry_run : Bool),
      (Eff.run "uci commit wireless"
          ∈ (BSSID.set_bssid_for_interfaces env macs interfaces dry_run).2
        ↔ (dry_run = false
            ∧ (BSSID.set_bssid_loop env macs dry_run interfaces 0).1.1 = true
            ∧ (BSSID.set_bssid_loop env macs dry_run interfaces 0).1.2 ≠ []))
      ∧ ((BSSID.set_bssid_loop env macs dry_run interfaces 0).1.1 = false →
          (BSSID.set_bssid_for_interfaces env macs interfaces dry_run).1.1 = false
          ∧ (BSSID.set_bssid_for_interfaces env macs interfaces dry_run).2
              = (BSSID.set_bssid_loop env macs dry_run interfaces 0).2
          ∧ Eff.run "uci commit wireless"
              ∉ (BSSID.set_bssid_for_interfaces env macs interfaces dry_run).2) := by
  intro env macs ifs dry
  rcases hl : BSSID.set_bssid_loop env macs dry ifs 0 with ⟨⟨s, ch⟩, t⟩
  have hnc : Eff.run "uci commit wireless" ∉ t := by
    have h := set_bssid_loop_no_commit env macs dry ifs 0
    rw [hl] at h
    exact h
  by_cases hcond : (!dry && s && !ch.isEmpty) = true
  · have hs : s = true := by
      rcases s <;> simp_all
    have hdry : dry = false := by
      rcases dry <;> simp_all
    have hch : ch.isEmpty = false := by
      rcases hc : ch.isEmpty <;> simp_all
    subst hdry
    rcases hcommit : BSSID.run_uci_command env "uci commit wireless" false
      with ⟨⟨cok, cmsg⟩, tc⟩
    have htc : tc = [Eff.run "uci commit wireless"] := by
      have h2 := (congrArg Prod.snd hcommit).symm
      simpa [BSSID.run_uci_command, apply_ite Prod.snd] using h2
    have hres : BSSID.set_bssid_for_interfaces env macs ifs false
        = ((s && cok, ch), t ++ tc) := by
      unfold BSSID.set_bssid_for_interfaces
      rw [hl]
      simp only []
      rw [if_pos hcond, hcommit]
    constructor
    · constructor
      · intro _
        refine ⟨rfl, hs, ?_⟩
        intro hnil
        simp only at hnil
        rw [hnil] at hch
        simp at hch
      · intro _
        rw [hres, htc]
        simp
    · intro hfalse
      simp only at hfalse
      rw [hs] at hfalse
      exact absurd hfalse (by simp)
  · have hres : BSSID.set_bssid_for_interfaces env macs ifs dry = ((s, ch), t) := by
      unfold BSSID.set_bssid_for_interfaces
      rw [hl]
      simp only []
      rw [if_neg hcond]
    rw [hres]
    constructor
    · constructor
      · intro h
        exact absurd h hnc
      · rintro ⟨hdry, hs, hch⟩
        exfalso
        apply hcond
        subst hdry
        simp only at hs hch
        simp [hs, List.isEmpty_iff, hch]
    · intro hs
      simp only at hs
      exact ⟨by simpa using hs, rfl, hnc⟩

/-- Witness for C10: with one interface whose `uci set` fails, the
operation fails overall, the failed run leaves its trace uncommitted
and no commit command is issued. -/
theorem bssid_commit_gating_witness :
    (BSSID.set_bssid_for_interfaces envFail macsConst [0] false).1.1 = false
    ∧ (BSSID.set_bssid_for_interfaces envFail macsConst [0] false).2
        = (BSSID.set_bssid_loop envFail macsConst false [0] 0).2
    ∧ Eff.run "uci commit wireless"
        ∉ (BSSID.set_bssid_for_interfaces envFail macsConst [0] false).2 :=
  (bssid_commit_gating envFail macsConst [0] false).2 (by decide)

/-! ### C2: generated MACs are unicast, locally administered, colon-hex -/

theorem hexDigitsRev_twelve (m : Nat) :
    MacAddressGenerator.hexDigitsRev 12 m =
      [MacAddressGenerator.hexDigitChar (m % 16),
       MacAddressGenerator.hexDigitChar (m / 16 % 16),
       MacAddressGenerator.hexDigitChar (m / 16 ^ 2 % 16),
       MacAddressGenerator.hexDigitChar (m / 16 ^ 3 % 16),
       MacAddressGenerator.hexDigitChar (m / 16 ^ 4 % 16),
       MacAddressGenerator.hexDigitChar (m / 16 ^ 5 % 16),
       MacAddressGenerator.hexDigitChar (m / 16 ^ 6 % 16),
       MacAddressGenerator.hexDigitChar (m / 16 ^ 7 % 16),
       MacAddressGenerator.hexDigitChar (m / 16 ^ 8 % 16),
       MacAddressGenerator.hexDigitChar (m / 16 ^ 9 % 16),
       MacAddressGenerator.hexDigitChar (m / 16 ^ 10 % 16),
       MacAddressGenerator.hexDigitChar (m / 16 ^ 11 % 16)] := by
  simp [MacAddressGenerator.hexDigitsRev, Nat.div_div_eq_div_mul]

theorem lowerHexOk_hexDigitChar :
    ∀ n, n < 16 → MacAddressGenerator.lowerHexOk (MacAddressGenerator.hexDigitChar n) = true := by
  decide

/-- The generated MAC string, fully expanded into its 17 characters. -/
theorem generate_unicast_mac_toList (r : Nat) :
    (MacAddressGenerator.generate_unicast_mac r).toList =
      [MacAddressGenerator.hexDigitChar (MacAddressGenerator.mac_int r / 16 ^ 11 % 16),
       MacAddressGenerator.hexDigitChar (MacAddressGenerator.mac_int r / 16 ^ 10 % 16), ':',
       MacAddressGenerator.hexDigitChar (MacAddressGenerator.mac_int r / 16 ^ 9 % 16),
       MacAddressGenerator.hexDigitChar (MacAddressGenerator.mac_int r / 16 ^ 8 % 16), ':',
       MacAddressGenerator.hexDigitChar (MacAddressGenerator.mac_int r / 16 ^ 7 % 16),
       MacAddressGenerator.hexDigitChar (MacAddressGenerator.mac_int r / 16 ^ 6 % 16), ':',
       MacAddressGenerator.hexDigitChar (MacAddressGenerator.mac_int r / 16 ^ 5 % 16),
       MacAddressGenerator.hexDigitChar (MacAddressGenerator.mac_int r / 16 ^ 4 % 16), ':',
       MacAddressGenerator.hexDigitChar (MacAddressGenerator.mac_int r / 16 ^ 3 % 16),
       MacAddressGenerator.hexDigitChar (MacAddressGenerator.mac_int r / 16 ^ 2 % 16), ':',
       MacAddressGenerator.hexDigitChar (MacAddressGenerator.mac_int r / 16 % 16),
       MacAddressGenerator.hexDigitChar (MacAddressGenerator.mac_int r % 16)] := by
  unfold MacAddressGenerator.generate_unicast_mac MacAddressGenerator.format012x
  rw [hexDigitsRev_twelve]
  rfl

theorem mac_int_lt (r : Nat) : MacAddressGenerator.mac_int r < 2 ^ 48 := by
  have h1 : r &&& 0xFEFFFFFFFFFF < 2 ^ 48 :=
    Nat.lt_of_le_of_lt Nat.and_le_right (by norm_num)
  have h2 : (0x020000000000 : Nat) < 2 ^ 48 := by norm_num
  exact Nat.bitwise_lt h1 h2

theorem first_octet_pair (r : Nat) :
    MacAddressGenerator.mac_int r / 16 ^ 11 % 16 = MacAddressGenerator.first_octet r / 16 ∧
    MacAddressGenerator.mac_int r / 16 ^ 10 % 16 = MacAddressGenerator.first_octet r % 16 := by
  have hm := mac_int_lt r
  have hfo : MacAddressGenerator.first_octet r = MacAddressGenerator.mac_int r / 2 ^ 40 :=
    Nat.shiftRight_eq_div_pow _ _
  have h10 : (16 : Nat) ^ 10 = 2 ^ 40 := by norm_num
  have hdd : MacAddressGenerator.mac_int r / 16 ^ 11 = MacAddressGenerator.first_octet r / 16 := by
    rw [hfo, ← h10, Nat.div_div_eq_div_mul]
    norm_num [← pow_succ]
  constructor
  · rw [hdd]
    apply Nat.mod_eq_of_lt
    rw [← hdd]
    apply Nat.div_lt_of_lt_mul
    calc MacAddressGenerator.mac_int r < 2 ^ 48 := hm
      _ ≤ 16 ^ 11 * 16 := by norm_num
  · rw [hfo, ← h10]

/-- C2.  For every 48-bit draw `r`, the MAC generated by
`generate_unicast_mac` has bit 0 of its first octet clear (unicast) and
bit 1 set (locally administered); its textual form is six
colon-separated lowercase two-hex-digit byte pairs, whose first pair is
exactly the hex rendering of that first octet.  (Stated for every
natural `r`, which subsumes the 48-bit range of `random.randint`.) -/
theorem mac_unicast_locally_administered_text :
    ∀ r : Nat,
      (MacAddressGenerator.first_octet r).testBit 0 = false
      ∧ (MacAddressGenerator.first_octet r).testBit 1 = true
      ∧ MacAddressGenerator.macTextOk (MacAddressGenerator.generate_unicast_mac r).toList = true
      ∧ (∃ rest, (MacAddressGenerator.generate_unicast_mac r).toList =
          MacAddressGenerator.hexDigitChar (MacAddressGenerator.first_octet r / 16)
            :: MacAddressGenerator.hexDigitChar (MacAddressGenerator.first_octet r % 16)
            :: ':' :: rest) := by
  intro r
  have hA40 : Nat.testBit 0xFEFFFFFFFFFF 40 = false := by decide
  have hB40 : Nat.testBit 0x020000000000 40 = false := by decide
  have hB41 : Nat.testBit 0x020000000000 41 = true := by decide
  refine ⟨?_, ?_, ?_, ?_⟩
  · unfold MacAddressGenerator.first_octet MacAddressGenerator.mac_int
    rw [Nat.testBit_shiftRight, Nat.testBit_or, Nat.testBit_and]
    norm_num [hA40, hB40]
  · unfold MacAddressGenerator.first_octet MacAddressGenerator.mac_int
    rw [Nat.testBit_shiftRight, Nat.testBit_or]
    norm_num [hB41]
  · rw [generate_unicast_mac_toList]
    have h16 : ∀ x : Nat, x % 16 < 16 := fun x => Nat.mod_lt _ (by norm_num)
    simp [MacAddressGenerator.macTextOk, lowerHexOk_hexDigitChar _ (h16 _)]
  · rw [generate_unicast_mac_toList, (first_octet_pair r).1, (first_octet_pair r).2]
    exact ⟨_, rfl⟩

/-! ### C4: `restart_modem` failure paths -/

/-- If the device is never present, waiting for presence times out. -/
theorem wait_present_never (env : ModemController.ModemEnv)
    (h : ∀ t, env.present t = false) :
    ∀ fuel t, ModemController.wait_for_device_state env true fuel t = (false, t + fuel) := by
  intro fuel
  induction fuel with
  | zero => intro t; rfl
  | succ f ih =>
    intro t
    rw [ModemController.wait_for_device_state, h t]
    simp only [show (false == true) = false from rfl, if_false, ih (t + 1)]
    have harith : t + 1 + f = t + (f + 1) := by omega
    rw [harith]
    simp

/-- If the device is always present, waiting for it to disappear times
out. -/
theorem wait_gone_always_present (env : ModemController.ModemEnv)
    (h : ∀ t, env.present t = true) :
    ∀ fuel t, ModemController.wait_for_device_state env false fuel t = (false, t + fuel) := by
  intro fuel
  induction fuel with
  | zero => intro t; rfl
  | succ f ih =>
    intro t
    rw [ModemController.wait_for_device_state, h t]
    simp only [show (true == false) = false from rfl, if_false, ih (t + 1)]
    have harith : t + 1 + f = t + (f + 1) := by omega
    rw [harith]
    simp

/-- If the device is never present, waiting for it to disappear
succeeds at the first poll. -/
theorem wait_gone_never_present (env : ModemController.ModemEnv)
    (h : ∀ t, env.present t = false) (fuel t : Nat) :
    ModemController.wait_for_device_state env false (fuel + 1) t = (true, t + 1) := by
  rw [ModemController.wait_for_device_state, h t]
  simp

/-- If the device is always present, waiting for presence succeeds at
the first poll. -/
theorem wait_present_always (env : ModemController.ModemEnv)
    (h : ∀ t, env.present t = true) (fuel t : Nat) :
    ModemController.wait_for_device_state env true (fuel + 1) t = (true, t + 1) := by
  rw [ModemController.wait_for_device_state, h t]
  simp

/-- Each `get_imsi` call advances the AT-call counter by one and issues
exactly the `AT+CIMI` command. -/
theorem get_imsi_shape (env : ModemController.ModemEnv) (k : Nat) :
    ModemController.get_imsi env k
      = ((ModemController.get_imsi env k).1, k + 1, [Eff.atCmd "AT+CIMI"]) := by
  by_cases h : (env.resp k "AT+CIMI").isEmpty = true <;>
    simp [ModemController.get_imsi, ModemController.run_at_command, h]

/-- When no IMSI can ever be read, the verification loop runs all its
attempts — one `AT+CIMI` per attempt — and returns nothing. -/
theorem imsi_attempts_none (env : ModemController.ModemEnv)
    (h : ∀ k, (ModemController.get_imsi env k).1 = none) :
    ∀ n k, ModemController.imsi_attempts env n k
      = (none, k + n, List.replicate n (Eff.atCmd "AT+CIMI")) := by
  intro n
  induction n with
  | zero => intro k; rfl
  | succ m ih =>
    intro k
    rw [ModemController.imsi_attempts]
    rw [get_imsi_shape env k, h k]
    simp only [ih (k + 1), List.replicate_succ, List.cons_append, List.nil_append]
    have harith : k + 1 + m = k + (m + 1) := by omega
    rw [harith]

/-- C4.  If the modem device node never reappears within the
reappearance timeout after the power-down command, `restart_modem`
returns failure and no IMSI query is ever issued (the trace holds only
the power-down command); conversely, when the device is present but
every one of the 10 bounded IMSI retries comes back empty, the retries
are exhausted — exactly 10 `AT+CIMI` commands — and the restart is
reported as failure as well. -/
theorem restart_modem_failure_paths :
    ∀ env : ModemController.ModemEnv,
      ((∀ t, env.present t = false) →
        ModemController.restart_modem env = (false, [Eff.atCmd "AT+QPOWD"]))
      ∧ ((∀ t, env.present t = true) →
          (∀ k, (ModemController.get_imsi env k).1 = none) →
        ModemController.restart_modem env =
          (false, Eff.atCmd "AT+QPOWD" :: List.replicate 10 (Eff.atCmd "AT+CIMI"))) := by
  intro env
  constructor
  · intro h
    have hg := wait_gone_never_present env h 29 0
    norm_num at hg
    have hp := wait_present_never env h 30 1
    norm_num at hp
    unfold ModemController.restart_modem
    rw [hg]
    simp only []
    rw [hp]
    simp [ModemController.run_at_command]
  · intro hpres hi
    have hg := wait_gone_always_present env hpres 30 0
    norm_num at hg
    have hp := wait_present_always env hpres 29 30
    norm_num at hp
    have ha := imsi_attempts_none env hi 10 1
    unfold ModemController.restart_modem
    rw [hg]
    simp only []
    rw [hp]
    simp [ModemController.run_at_command, ha]

/-- Witness for C4: an environment whose device never reappears (only
the power-down command is traced, no `AT+CIMI`), and one that is always
present but never yields an IMSI (failure after exactly 10 queries). -/
theorem restart_modem_failure_paths_witness :
    ModemController.restart_modem mEnvAbsent = (false, [Eff.atCmd "AT+QPOWD"])
    ∧ ModemController.restart_modem mEnvNoImsi =
        (false, Eff.atCmd "AT+QPOWD" :: List.replicate 10 (Eff.atCmd "AT+CIMI")) :=
  ⟨(restart_modem_failure_paths mEnvAbsent).1 (fun _ => rfl),
   (restart_modem_failure_paths mEnvNoImsi).2 (fun _ => rfl) (fun _ => rfl)⟩

/-! ### C6: WAN-MAC fallback order -/

/-- Counterexample to C6 as stated.  The claim says the fallback order
is: WAN-direct first, eth0 only if that fails.  But in
`NetworkConfigurator.set_wan_mac_address` (src/core/net.py), with device
entry 5 absent and an `eth0` interface present, the run brings `eth0`
down and sets its address WITHOUT ever attempting (let alone seeing
fail) the direct `uci set network.wan.macaddr` step: the eth0 command is
in the trace and the WAN-direct command is not. -/
theorem wan_mac_fallback_order_counterexample :
    (NetworkConfigurator.set_wan_mac_address c6env 5 "02:11:22:33:44:55" false).1 = true
    ∧ Eff.run (NetworkConfigurator.eth0_addr_cmd "02:11:22:33:44:55")
        ∈ (NetworkConfigurator.set_wan_mac_address c6env 5 "02:11:22:33:44:55" false).2
    ∧ Eff.run (NetworkConfigurator.wan_set_cmd "02:11:22:33:44:55")
        ∉ (NetworkConfigurator.set_wan_mac_address c6env 5 "02:11:22:33:44:55" false).2 := by
  refine ⟨?_, ?_, ?_⟩ <;> decide

/-- C6, amended.  When the addressed device entry does not exist:
in bluecode's `NetworkManager` the fallback sets the MAC directly on
the logical WAN interface and succeeds (the eth0 route is reachable
only if that step raises, which the spec-modelled command layer never
does), so device index 5 absent falls back to the WAN-direct set and
returns success; in the legacy `NetworkConfigurator` (src/core/net.py)
the fallback instead tries the `eth0` physical interface FIRST (down,
set hardware address, up) and only when that route is unavailable or
fails does it set the WAN interface MAC directly, returning failure
only when every step fails. -/
theorem wan_mac_fallback_order_amended :
    ∀ (env : Env) (mac : String) (i : Int),
      ((env.run (NetworkConfigurator.check_cmd i)).2 ≠ 0 →
        NetworkManager.set_wan_mac_address env i mac false =
          (true, [Eff.run (NetworkConfigurator.check_cmd i),
                  Eff.run (NetworkConfigurator.wan_set_cmd mac)]))
      ∧ ((env.run (NetworkConfigurator.check_cmd i)).2 ≠ 0 →
          strContains (env.run NetworkConfigurator.ls_net_cmd).1 "eth0" = true →
          (env.run NetworkConfigurator.eth0_down_cmd).2 = 0 →
          (env.run (NetworkConfigurator.eth0_addr_cmd mac)).2 = 0 →
          (env.run NetworkConfigurator.eth0_up_cmd).2 = 0 →
        NetworkConfigurator.set_wan_mac_address env i mac false =
          (true, [Eff.run (NetworkConfigurator.check_cmd i),
                  Eff.run NetworkConfigurator.ls_net_cmd,
                  Eff.run NetworkConfigurator.eth0_down_cmd,
                  Eff.run (NetworkConfigurator.eth0_addr_cmd mac),
                  Eff.run NetworkConfigurator.eth0_up_cmd]))
      ∧ ((env.run (NetworkConfigurator.check_cmd i)).2 ≠ 0 →
          strContains (env.run NetworkConfigurator.ls_net_cmd).1 "eth0" = false →
          (env.run NetworkConfigurator.wan_get_cmd).2 = 0 →
          (env.run (NetworkConfigurator.wan_set_cmd mac)).2 = 0 →
        NetworkConfigurator.set_wan_mac_address env i mac false =
          (true, [Eff.run (NetworkConfigurator.check_cmd i),
                  Eff.run NetworkConfigurator.ls_net_cmd,
                  Eff.run NetworkConfigurator.wan_get_cmd,
                  Eff.run (NetworkConfigurator.wan_set_cmd mac)]))
      ∧ ((env.run (NetworkConfigurator.check_cmd i)).2 ≠ 0 →
          strContains (env.run NetworkConfigurator.ls_net_cmd).1 "eth0" = false →
          (env.run NetworkConfigurator.wan_get_cmd).2 ≠ 0 →
        (NetworkConfigurator.set_wan_mac_address env i mac false).1 = false) := by
  intro env mac i
  refine ⟨?_, ?_, ?_, ?_⟩
  · intro hc
    simp [NetworkManager.set_wan_mac_address, NetworkManager.set_wan_mac_alternative,
          SystemCommand.run_command, NetworkConfigurator.wan_set_cmd, bne_iff_ne, hc]
  · intro hc he hd ha hu
    simp [NetworkConfigurator.set_wan_mac_address,
          NetworkConfigurator.apply_alternative_wan_mac_change,
          NetworkConfigurator.try_physical_interface_update,
          CommandExecutor.execute, bne_iff_ne, hc, he, hd, ha, hu]
  · intro hc he hg hs
    simp [NetworkConfigurator.set_wan_mac_address,
          NetworkConfigurator.apply_alternative_wan_mac_change,
          NetworkConfigurator.try_physical_interface_update,
          NetworkConfigurator.try_wan_interface_update,
          CommandExecutor.execute, bne_iff_ne, hc, he, hg, hs]
  · intro hc he hg
    simp [NetworkConfigurator.set_wan_mac_address,
          NetworkConfigurator.apply_alternative_wan_mac_change,
          NetworkConfigurator.try_physical_interface_update,
          NetworkConfigurator.try_wan_interface_update,
          CommandExecutor.execute, bne_iff_ne, hc, he, hg]

/-- Witness for the amended C6, at concrete environments: device entry 5
absent with (a) the bluecode manager falling back to the WAN-direct set
and succeeding, (b) the src configurator taking the eth0 route when
eth0 exists, (c) the src configurator falling back to the WAN-direct
set when eth0 is absent, and (d) failure when every step fails. -/
theorem wan_mac_fallback_order_amended_witness :
    NetworkManager.set_wan_mac_address c6env 5 "02:11:22:33:44:55" false =
      (true, [Eff.run (NetworkConfigurator.check_cmd 5),
              Eff.run (NetworkConfigurator.wan_set_cmd "02:11:22:33:44:55")])
    ∧ NetworkConfigurator.set_wan_mac_address c6env 5 "02:11:22:33:44:55" false =
      (true, [Eff.run (NetworkConfigurator.check_cmd 5),
              Eff.run NetworkConfigurator.ls_net_cmd,
              Eff.run NetworkConfigurator.eth0_down_cmd,
              Eff.run (NetworkConfigurator.eth0_addr_cmd "02:11:22:33:44:55"),
              Eff.run NetworkConfigurator.eth0_up_cmd])
    ∧ NetworkConfigurator.set_wan_mac_address c6envNoEth 5 "02:11:22:33:44:55" false =
      (true, [Eff.run (NetworkConfigurator.check_cmd 5),
              Eff.run NetworkConfigurator.ls_net_cmd,
              Eff.run NetworkConfigurator.wan_get_cmd,
              Eff.run (NetworkConfigurator.wan_set_cmd "02:11:22:33:44:55")])
    ∧ (NetworkConfigurator.set_wan_mac_address c6envNoEthFail 5 "02:11:22:33:44:55" false).1
        = false :=
  ⟨(wan_mac_fallback_order_amended c6env "02:11:22:33:44:55" 5).1 (by decide),
   (wan_mac_fallback_order_amended c6env "02:11:22:33:44:55" 5).2.1 (by decide) (by decide)
     (by decide) (by decide) (by decide),
   (wan_mac_fallback_order_amended c6envNoEth "02:11:22:33:44:55" 5).2.2.1 (by decide)
     (by decide) (by decide) (by decide),
   (wan_mac_fallback_order_amended c6envNoEthFail "02:11:22:33:44:55" 5).2.2.2 (by decide)
     (by decide) (by decide)⟩

/-! ### C5: MAC redaction is idempotent and complete -/

theorem posOk_X (j : Nat) : LogSanitize.posOk j (some 'X') = false := by
  show (if j % 3 == 2 then LogSanitize.isSepC 'X' else LogSanitize.isHexDigitC 'X') = false
  split <;> decide

theorem posOk_none (j : Nat) : LogSanitize.posOk j none = false := rfl

/-- A match window cannot contain an `'X'`. -/
theorem mac_match_at_false_of_X {cs : List Char} {i j : Nat}
    (hj : j < 17) (hx : cs[i + j]? = some 'X') :
    LogSanitize.mac_match_at cs i = false := by
  unfold LogSanitize.mac_match_at
  cases hall : (List.range 17).all fun j => LogSanitize.posOk j cs[i + j]? with
  | false => rfl
  | true =>
    exfalso
    have h := List.all_eq_true.mp hall j (List.mem_range.mpr hj)
    rw [hx, posOk_X] at h
    exact Bool.false_ne_true h

/-- A match window cannot extend past the end of the text. -/
theorem mac_match_at_false_of_none {cs : List Char} {i j : Nat}
    (hj : j < 17) (hx : cs[i + j]? = none) :
    LogSanitize.mac_match_at cs i = false := by
  unfold LogSanitize.mac_match_at
  cases hall : (List.range 17).all fun j => LogSanitize.posOk j cs[i + j]? with
  | false => rfl
  | true =>
    exfalso
    have h := List.all_eq_true.mp hall j (List.mem_range.mpr hj)
    rw [hx, posOk_none] at h
    exact Bool.false_ne_true h

theorem mac_match_at_nil (i : Nat) : LogSanitize.mac_match_at [] i = false :=
  mac_match_at_false_of_none (j := 0) (by norm_num) (by simp)

/-- Matching is shift invariant. -/
theorem mac_match_at_cons_succ (c : Char) (cs : List Char) (k : Nat) :
    LogSanitize.mac_match_at (c :: cs) (k + 1) = LogSanitize.mac_match_at cs k := by
  unfold LogSanitize.mac_match_at
  apply all_range_congr
  intro j hj
  have harith : k + 1 + j = (k + j) + 1 := by omega
  rw [harith, List.getElem?_cons_succ]

theorem mac_token_length : LogSanitize.mac_token.length = 17 := rfl

/-- No match can start inside a freshly emitted redaction token: every
window beginning there covers the token's final `'X'`. -/
theorem mac_match_at_token_left {t : List Char} {i : Nat} (hi : i ≤ 16) :
    LogSanitize.mac_match_at (LogSanitize.mac_token ++ t) i = false := by
  apply mac_match_at_false_of_X (j := 16 - i) (by omega)
  have harith : i + (16 - i) = 16 := by omega
  rw [harith, List.getElem?_append, if_pos (by rw [mac_token_length]; omega)]
  rfl

/-- Matching beyond an emitted token is matching in the remainder. -/
theorem mac_match_at_token_right (t : List Char) (m : Nat) :
    LogSanitize.mac_match_at (LogSanitize.mac_token ++ t) (17 + m) =
      LogSanitize.mac_match_at t m := by
  unfold LogSanitize.mac_match_at
  apply all_range_congr
  intro j hj
  rw [List.getElem?_append_right (by rw [mac_token_length]; omega)]
  have harith : 17 + m + j - LogSanitize.mac_token.length = m + j := by
    rw [mac_token_length]; omega
  rw [harith]

/-- Prefix behavior of one sanitization pass: up to any position `n`,
the output either agrees with the input character by character, or an
`'X'` (from an emitted token) appears no later than `n`. -/
theorem sub_mac_go_prefix :
    ∀ (fuel : Nat) (cs : List Char) (n : Nat), cs.length ≤ fuel →
      (∀ j, j ≤ n → (LogSanitize.sub_mac_go fuel cs)[j]? = cs[j]?) ∨
      (∃ j, j ≤ n ∧ (LogSanitize.sub_mac_go fuel cs)[j]? = some 'X') := by
  intro fuel
  induction fuel with
  | zero =>
    intro cs n _
    left
    intro j _
    rfl
  | succ f ih =>
    intro cs n hlen
    cases cs with
    | nil =>
      left
      intro j _
      rfl
    | cons c cs' =>
      by_cases hm : LogSanitize.mac_match_at (c :: cs') 0 = true
      · right
        refine ⟨0, Nat.zero_le _, ?_⟩
        rw [show LogSanitize.sub_mac_go (f + 1) (c :: cs') =
            LogSanitize.mac_token ++ LogSanitize.sub_mac_go f ((c :: cs').drop 17) from by
          simp [LogSanitize.sub_mac_go, hm]]
        rfl
      · have hstep : LogSanitize.sub_mac_go (f + 1) (c :: cs') =
            c :: LogSanitize.sub_mac_go f cs' := by
          simp [LogSanitize.sub_mac_go, hm]
        cases n with
        | zero =>
          left
          intro j hj
          have hj0 : j = 0 := Nat.le_zero.mp hj
          subst hj0
          rw [hstep]
          simp
        | succ m =>
          have hlen' : cs'.length ≤ f := by
            simpa using Nat.le_of_succ_le_succ hlen
          rcases ih cs' m hlen' with hL | ⟨j, hj, hx⟩
          · left
            intro j hj
            cases j with
            | zero => rw [hstep]; simp
            | succ k =>
              rw [hstep, List.getElem?_cons_succ, List.getElem?_cons_succ]
              exact hL k (Nat.le_of_succ_le_succ hj)
          · right
            refine ⟨j + 1, Nat.succ_le_succ hj, ?_⟩
            rw [hstep, List.getElem?_cons_succ]
            exact hx

/-- One sanitization pass leaves no MAC-pattern match anywhere. -/
theorem sub_mac_go_clean :
    ∀ (fuel : Nat) (cs : List Char), cs.length ≤ fuel →
      ∀ i, LogSanitize.mac_match_at (LogSanitize.sub_mac_go fuel cs) i = false := by
  intro fuel
  induction fuel with
  | zero =>
    intro cs hlen i
    have hnil : cs = [] := List.eq_nil_of_length_eq_zero (Nat.le_zero.mp hlen)
    subst hnil
    exact mac_match_at_nil i
  | succ f ih =>
    intro cs hlen i
    cases cs with
    | nil => exact mac_match_at_nil i
    | cons c cs' =>
      by_cases hm : LogSanitize.mac_match_at (c :: cs') 0 = true
      · have hstep : LogSanitize.sub_mac_go (f + 1) (c :: cs') =
            LogSanitize.mac_token ++ LogSanitize.sub_mac_go f ((c :: cs').drop 17) := by
          simp [LogSanitize.sub_mac_go, hm]
        rw [hstep]
        rcases Nat.lt_or_ge i 17 with hlt | hge
        · exact mac_match_at_token_left (by omega)
        · obtain ⟨m, rfl⟩ : ∃ m, i = 17 + m := ⟨i - 17, by omega⟩
          rw [mac_match_at_token_right]
          apply ih
          simp only [List.length_drop]
          omega
      · have hstep : LogSanitize.sub_mac_go (f + 1) (c :: cs') =
            c :: LogSanitize.sub_mac_go f cs' := by
          simp [LogSanitize.sub_mac_go, hm]
        have hlen' : cs'.length ≤ f := by
          simpa using Nat.le_of_succ_le_succ hlen
        cases i with
        | succ k =>
          rw [hstep, mac_match_at_cons_succ]
          exact ih cs' hlen' k
        | zero =>
          rcases sub_mac_go_prefix (f + 1) (c :: cs') 16 hlen with hA | ⟨j, hj, hx⟩
          · have heq : LogSanitize.mac_match_at (LogSanitize.sub_mac_go (f + 1) (c :: cs')) 0
                = LogSanitize.mac_match_at (c :: cs') 0 := by
              unfold LogSanitize.mac_match_at
              apply all_range_congr
              intro j hj17
              have hAj := hA j (by omega)
              simp only [Nat.zero_add]
              rw [hAj]
            rw [heq]
            exact Bool.eq_false_iff.mpr hm
          · exact mac_match_at_false_of_X (i := 0) (j := j) (by omega) (by simpa using hx)

/-- A pass over match-free text is the identity. -/
theorem sub_mac_go_id_of_clean :
    ∀ (fuel : Nat) (cs : List Char), cs.length ≤ fuel →
      (∀ i, LogSanitize.mac_match_at cs i = false) →
      LogSanitize.sub_mac_go fuel cs = cs := by
  intro fuel
  induction fuel with
  | zero =>
    intro cs _ _
    rfl
  | succ f ih =>
    intro cs hlen h
    cases cs with
    | nil => rfl
    | cons c cs' =>
      have hm : LogSanitize.mac_match_at (c :: cs') 0 = false := h 0
      simp only [LogSanitize.sub_mac_go, hm, Bool.false_eq_true, if_false, List.cons.injEq,
        true_and]
      exact ih cs' (by simpa using Nat.le_of_succ_le_succ hlen) fun i => by
        rw [← mac_match_at_cons_succ c cs' i]
        exact h (i + 1)

/-- The sanitization pass leaves no MAC-pattern match in its output. -/
theorem sub_mac_clean (cs : List Char) (i : Nat) :
    LogSanitize.mac_match_at (LogSanitize.sub_mac cs) i = false :=
  sub_mac_go_clean cs.length cs (Nat.le_refl _) i

/-- The sanitization pass is idempotent. -/
theorem sub_mac_idempotent (cs : List Char) :
    LogSanitize.sub_mac (LogSanitize.sub_mac cs) = LogSanitize.sub_mac cs :=
  sub_mac_go_id_of_clean _ _ (Nat.le_refl _) (sub_mac_clean cs)

/-- C5.  MAC redaction is idempotent and complete: for every text,
applying the sanitization pass twice equals applying it once, the
output of one pass contains no substring matching the MAC pattern at
any position, and in particular the line
`Client 00:1A:2B:3C:4D:5E connected` becomes
`Client XX:XX:XX:XX:XX:XX connected` after one pass. -/
theorem mac_redaction_idempotent_complete :
    (∀ text : List Char,
      LogSanitize.sub_mac (LogSanitize.sub_mac text) = LogSanitize.sub_mac text)
    ∧ (∀ (text : List Char) (i : Nat),
      LogSanitize.mac_match_at (LogSanitize.sub_mac text) i = false)
    ∧ LogSanitize.sub_mac ("Client 00:1A:2B:3C:4D:5E connected".toList)
        = "Client XX:XX:XX:XX:XX:XX connected".toList :=
  ⟨sub_mac_idempotent, sub_mac_clean, by decide⟩

/-! ### C1: IMEI generation/validation round trip -/

theorem luhn_lt_ten (l : List Char) : ImeiGenerator.calculate_luhn_check_digit l < 10 :=
  Nat.mod_lt _ (by norm_num)

theorem common_tac_facts :
    ∀ k : Fin 9,
      (ImeiGenerator.common_tacs.getD k.1 "").toList.all isAsciiDigit = true
      ∧ (ImeiGenerator.common_tacs.getD k.1 "").toList.length = 8 := by
  decide

/-- Appending the computed Luhn check digit to a 14-digit base always
yields a string accepted by `validate_imei`. -/
theorem validate_imei_concat (base : List Char) (hlen : base.length = 14)
    (hdig : base.all isAsciiDigit = true) :
    ImeiGenerator.validate_imei
      (String.mk (base ++ [digitChar (ImeiGenerator.calculate_luhn_check_digit base)]))
      = true := by
  have hck := luhn_lt_ten base
  unfold ImeiGenerator.validate_imei
  simp only [string_mk_toList, ImeiGenerator.isdigitB, List.all_append, List.length_append,
    hlen, hdig, List.getLast?_concat, List.dropLast_concat]
  simp [isAsciiDigit_digitChar _ hck, digitVal_digitChar _ hck]

/-- Every generated IMEI is a 15-digit string that validates. -/
theorem generate_random_imei_valid (uc : Bool) (ti : Fin 9)
    (rt : Fin 8 → Fin 10) (sd : Fin 6 → Fin 10) :
    (ImeiGenerator.generate_random_imei uc ti rt sd).toList.length = 15
    ∧ (ImeiGenerator.generate_random_imei uc ti rt sd).toList.all isAsciiDigit = true
    ∧ ImeiGenerator.validate_imei (ImeiGenerator.generate_random_imei uc ti rt sd) = true := by
  have hserial_len : (List.ofFn fun i : Fin 6 => digitChar (sd i)).length = 6 :=
    List.length_ofFn _
  have hserial_dig : (List.ofFn fun i : Fin 6 => digitChar (sd i)).all isAsciiDigit = true := by
    rw [List.all_eq_true]
    intro c hc
    rcases (List.mem_ofFn _ _).mp hc with ⟨i, rfl⟩
    exact isAsciiDigit_digitChar _ (sd i).isLt
  have htac_len : (if uc then (ImeiGenerator.common_tacs.getD ti.1 "").toList
      else List.ofFn fun i : Fin 8 => digitChar (rt i)).length = 8 := by
    cases uc with
    | true => exact (common_tac_facts ti).2
    | false => exact List.length_ofFn _
  have htac_dig : (if uc then (ImeiGenerator.common_tacs.getD ti.1 "").toList
      else List.ofFn fun i : Fin 8 => digitChar (rt i)).all isAsciiDigit = true := by
    cases uc with
    | true => exact (common_tac_facts ti).1
    | false =>
      rw [List.all_eq_true]
      intro c hc
      rcases (List.mem_ofFn _ _).mp hc with ⟨i, rfl⟩
      exact isAsciiDigit_digitChar _ (rt i).isLt
  have hbase_len : ((if uc then (ImeiGenerator.common_tacs.getD ti.1 "").toList
      else List.ofFn fun i : Fin 8 => digitChar (rt i))
        ++ List.ofFn fun i : Fin 6 => digitChar (sd i)).length = 14 := by
    rw [List.length_append, htac_len, hserial_len]
  have hbase_dig : ((if uc then (ImeiGenerator.common_tacs.getD ti.1 "").toList
      else List.ofFn fun i : Fin 8 => digitChar (rt i))
        ++ List.ofFn fun i : Fin 6 => digitChar (sd i)).all isAsciiDigit = true := by
    rw [List.all_append, htac_dig, hserial_dig]
    rfl
  have hck := luhn_lt_ten ((if uc then (ImeiGenerator.common_tacs.getD ti.1 "").toList
      else List.ofFn fun i : Fin 8 => digitChar (rt i))
        ++ List.ofFn fun i : Fin 6 => digitChar (sd i))
  refine ⟨?_, ?_, ?_⟩
  · show (_ ++ [_]).length = 15
    rw [List.length_append, hbase_len]
    rfl
  · show (_ ++ [_]).all isAsciiDigit = true
    rw [List.all_append, hbase_dig]
    simp only [List.all_cons, List.all_nil, Bool.and_true, Bool.true_and]
    exact isAsciiDigit_digitChar _ hck
  · exact validate_imei_concat _ hbase_len hbase_dig

/-- Unpacking a successful validation. -/
theorem validate_imei_unpack (s : String)
    (h : ImeiGenerator.validate_imei s = true) :
    s.toList.all isAsciiDigit = true ∧ s.toList.length = 15 ∧
    ∃ last, s.toList.getLast? = some last ∧
      ImeiGenerator.calculate_luhn_check_digit s.toList.dropLast = digitVal last := by
  unfold ImeiGenerator.validate_imei at h
  by_cases hc : (ImeiGenerator.isdigitB s.toList && s.toList.length == 15) = true
  · rcases Bool.and_eq_true_iff.mp hc with ⟨hd, hl⟩
    rcases Bool.and_eq_true_iff.mp hd with ⟨_, hdig⟩
    have hlen : s.toList.length = 15 := by simpa using hl
    refine ⟨hdig, hlen, ?_⟩
    simp only [hc, Bool.not_true, Bool.false_eq_true, if_false] at h
    cases hg : s.toList.getLast? with
    | none =>
      rw [hg] at h
      simp at h
    | some last =>
      rw [hg] at h
      simp at h
      exact ⟨last, rfl, h⟩
  · simp [Bool.eq_false_iff.mpr hc] at h
    exfalso
    apply hc
    rw [Bool.and_eq_true_iff]
    refine ⟨h.1.1, ?_⟩
    simp only [beq_iff_eq]
    exact h.1.2

/-- Replacing the check digit of a valid IMEI by any other digit breaks
validation. -/
theorem validate_imei_mutate (s : String) (d : Char)
    (hval : ImeiGenerator.validate_imei s = true)
    (hd : isAsciiDigit d = true)
    (hne : d ≠ s.toList.getLastD ' ') :
    ImeiGenerator.validate_imei (ImeiGenerator.mutate_check_digit s d) = false := by
  obtain ⟨hdig, hlen, last, hg, hluhn⟩ := validate_imei_unpack s hval
  have hlast_mem : last ∈ s.toList := List.mem_of_mem_getLast? (Option.mem_def.mpr hg)
  have hlast_dig : isAsciiDigit last = true := List.all_eq_true.mp hdig last hlast_mem
  have hlastD : s.toList.getLastD ' ' = last := by
    rw [List.getLastD_eq_getLast?, hg]
    rfl
  have hlen' : (s.toList.dropLast ++ [d]).length = 15 := by
    rw [List.length_append, List.length_dropLast, hlen]
    rfl
  have hdig' : (s.toList.dropLast ++ [d]).all isAsciiDigit = true := by
    rw [List.all_append, Bool.and_eq_true_iff]
    constructor
    · rw [List.all_eq_true]
      intro c hc
      exact List.all_eq_true.mp hdig c ((List.dropLast_sublist s.toList).subset hc)
    · simp [hd]
  have hvne : digitVal last ≠ digitVal d := fun hEq =>
    hne ((digit_char_inj last d hlast_dig hd hEq).symm ▸ hlastD.symm ▸ rfl)
  have hcond : (ImeiGenerator.isdigitB (s.toList.dropLast ++ [d])
      && ((s.toList.dropLast ++ [d]).length == 15)) = true := by
    rw [Bool.and_eq_true_iff]
    refine ⟨?_, by rw [hlen']; rfl⟩
    unfold ImeiGenerator.isdigitB
    rw [Bool.and_eq_true_iff]
    refine ⟨by simp, hdig'⟩
  unfold ImeiGenerator.validate_imei ImeiGenerator.mutate_check_digit
  simp only [string_mk_toList, hcond, Bool.not_true, Bool.false_eq_true, if_false,
    List.getLast?_concat, List.dropLast_concat, hluhn]
  rw [beq_eq_false_iff_ne]
  exact hvne

/-- The code's `validate_imei` is exactly the spec's characterization. -/
theorem validate_imei_iff_spec (s : String) :
    ImeiGenerator.validate_imei s = true ↔ ImeiGenerator.spec_validate_imei s := by
  constructor
  · intro h
    obtain ⟨hdig, hlen, last, hg, hluhn⟩ := validate_imei_unpack s h
    refine ⟨hlen, fun c hc => List.all_eq_true.mp hdig c hc, ?_⟩
    have htake : s.toList.take 14 = s.toList.dropLast := by
      rw [List.dropLast_eq_take, hlen]
    rw [htake, hluhn, List.getLastD_eq_getLast?, hg]
    rfl
  · rintro ⟨hlen, hdig, hluhn⟩
    have hne : s.toList ≠ [] := by
      intro hnil
      rw [hnil] at hlen
      simp at hlen
    have hg : s.toList.getLast? = some (s.toList.getLast hne) :=
      List.getLast?_eq_getLast _ hne
    have hall : s.toList.all isAsciiDigit = true := List.all_eq_true.mpr hdig
    have hcond : (ImeiGenerator.isdigitB s.toList && (s.toList.length == 15)) = true := by
      rw [Bool.and_eq_true_iff]
      constructor
      · unfold ImeiGenerator.isdigitB
        rw [Bool.and_eq_true_iff]
        exact ⟨by simpa using hne, hall⟩
      · rw [hlen]; rfl
    have htake : s.toList.take 14 = s.toList.dropLast := by
      rw [List.dropLast_eq_take, hlen]
    unfold ImeiGenerator.validate_imei
    simp only [hcond, Bool.not_true, Bool.false_eq_true, if_false, hg]
    rw [← htake, hluhn, List.getLastD_eq_getLast?, hg]
    simp

/-- C1.  The IMEI generation/validation round trip: every string
returned by `generate_random_imei` (over all its random draws) is
exactly 15 decimal digits and validates; replacing the 15th (check)
digit of any valid IMEI with any different digit makes `validate_imei`
return false; and for every string `s`, `validate_imei s` is true iff
`s` is exactly 15 decimal digits whose Luhn check digit over `s[0:14]`
equals `s[14]` (the spec-side characterization
`spec_validate_imei`). -/
theorem imei_generate_validate_roundtrip :
    (∀ (uc : Bool) (ti : Fin 9) (rt : Fin 8 → Fin 10) (sd : Fin 6 → Fin 10),
      (ImeiGenerator.generate_random_imei uc ti rt sd).toList.length = 15
      ∧ (ImeiGenerator.generate_random_imei uc ti rt sd).toList.all isAsciiDigit = true
      ∧ ImeiGenerator.validate_imei (ImeiGenerator.generate_random_imei uc ti rt sd) = true)
    ∧ (∀ (s : String) (d : Char), ImeiGenerator.validate_imei s = true →
        isAsciiDigit d = true → d ≠ s.toList.getLastD ' ' →
        ImeiGenerator.validate_imei (ImeiGenerator.mutate_check_digit s d) = false)
    ∧ (∀ s : String, ImeiGenerator.validate_imei s = true ↔ ImeiGenerator.spec_validate_imei s) :=
  ⟨generate_random_imei_valid, validate_imei_mutate, validate_imei_iff_spec⟩

/-- Witness for C1 at a concrete IMEI: `357095051234564` (curated
Samsung TAC, serial `123456`, Luhn check digit 4) validates, and
replacing its check digit `'4'` by the different digit `'0'` fails
validation. -/
theorem imei_generate_validate_roundtrip_witness :
    ImeiGenerator.validate_imei "357095051234564" = true
    ∧ ImeiGenerator.validate_imei
        (ImeiGenerator.mutate_check_digit "357095051234564" '0') = false :=
  ⟨by decide,
   imei_generate_validate_roundtrip.2.1 "357095051234564" '0'
     (by decide) (by decide) (by decide)⟩
